import Mathlib

/-!
Verification of the AgroConnect order & settlement workflow.

This file gives a shallow embedding of the order lifecycle of the
AgroConnect marketplace backend: order creation with price snapshots
(`orders/serializers.py`, `OrderCreateSerializer.create`), the seller
`confirm` and `ship` actions and the seller cancel endpoint
(`apps/orders/views.py`, `OrderViewSet`), order-number generation
(`apps/orders/models.py`, `Order.save`), the SSLCommerz payment callbacks
(`orders/payment_views.py`) and the RedX shipment adapter
(`apps/orders/utils.py`, `create_redx_shipment`).

Conventions of the embedding:
* monetary amounts (Django `DecimalField(max_digits=10, decimal_places=2)`)
  are integers in cents; 80.00 is 8000;
* timestamps are integers;
* the product table and the order table are association lists keyed by
  primary key; a Django `save()` is an in-place row update;
* `status` and `payment_status` are strings, exactly as the Django
  `CharField`s store them;
* outbound HTTP calls (SSLCommerz validation, RedX booking) are modelled
  by explicit parameters carrying the parsed response the code inspects.
-/

/-- A row of the product table (`apps/products`): the fields the order
workflow reads — primary key, seller, unit price, stock and active flag. -/
structure Product where
  id : Nat
  sellerId : Nat
  name : String
  price : Int
  stock : Int
  isActive : Bool
deriving DecidableEq, Repr

/-- A row of the `OrderItem` table (`apps/orders/models.py`): product
reference, quantity and the snapshotted prices. -/
structure OrderItem where
  productId : Nat
  quantity : Int
  unit_price : Int
  total_price : Int
deriving DecidableEq, Repr

/-- A row of the `Order` table (`apps/orders/models.py`), restricted to the
fields the claims touch, with the line items attached (in the database they
live in their own table keyed by the order id). -/
structure Order where
  id : Nat
  order_number : String
  buyerId : Nat
  subtotal : Int
  delivery_fee : Int
  total_amount : Int
  status : String
  payment_method : String
  payment_status : String
  sslcommerz_tran_id : Option String
  sslcommerz_val_id : Option String
  payment_date : Option Int
  redx_order_id : Option String
  redx_tracking_number : Option String
  shipping_status : String
  shipped_at : Option Int
  delivered_at : Option Int
  items : List OrderItem
deriving DecidableEq, Repr

/-- Modelled from the spec: the string value of the `confirmed` order
status.  The orders app under `frontend/` imports its `Order` model from a
`models.py` that is not in the source tree, and `backend/apps/orders/views.py`
references `Order.StatusChoices.CONFIRMED`, a member the `StatusChoices`
class in `backend/apps/orders/models.py` does not declare; the spec's state
machine (§4.1) places `confirmed` between `processing` and `shipped`, so the
missing member is modelled as the lowercase string like every other member. -/
def statusConfirmed : String := "confirmed"

/-- `Product.objects.get(id=product_id, is_active=True)` — lookup used by
`OrderCreateSerializer.create`. -/
def getActiveProduct : List Product → Nat → Option Product
  | [], _ => none
  | p :: rest, pid =>
    if p.id == pid && p.isActive then some p else getActiveProduct rest pid

/-- `item.product` — foreign-key lookup by primary key, used by `confirm`. -/
def getProduct : List Product → Nat → Option Product
  | [], _ => none
  | p :: rest, pid =>
    if p.id == pid then some p else getProduct rest pid

/-- `product.stock = s; product.save()` — write the stock column of row
`pid`. -/
def setStock : List Product → Nat → Int → List Product
  | [], _, _ => []
  | p :: rest, pid, s =>
    (if p.id == pid then { p with stock := s } else p) :: setStock rest pid s

/-- A later edit of a product's live price (`product.price = np; save()`),
used to state that order snapshots are immune to it. -/
def setPrice : List Product → Nat → Int → List Product
  | [], _, _ => []
  | p :: rest, pid, np =>
    (if p.id == pid then { p with price := np } else p) :: setPrice rest pid np

/-- `(getProduct store pid).map stock` — the stock column of row `pid`. -/
def stockOf (store : List Product) (pid : Nat) : Option Int :=
  (getProduct store pid).map (fun p => p.stock)

/-- Python `f"{n:0wd}"`: decimal rendering of `n` left-padded with zeros to
width `w` (wider numbers are kept whole, as in Python). -/
def padZeros (w : Nat) (n : Nat) : String :=
  let s := toString n
  String.mk (List.replicate (w - s.length) '0') ++ s

/-- Python `s[-n:]`: the last `n` characters of `s` (all of `s` when it is
shorter). -/
def takeLast (n : Nat) (s : String) : String :=
  String.mk (s.data.drop (s.length - n))

/-- The database `startswith` filter on a varchar column: character-wise
prefix test. -/
def strStartsWith (pre s : String) : Bool :=
  List.isPrefixOf pre.data s.data

/-- Lexicographic comparison of character lists by code point — the binary
collation a database applies to a varchar column. -/
def charListLt : List Char → List Char → Bool
  | [], [] => false
  | [], _ :: _ => true
  | _ :: _, [] => false
  | a :: as, b :: bs =>
    a.toNat < b.toNat || (a.toNat == b.toNat && charListLt as bs)

/-- String comparison under binary collation. -/
def strLt (a b : String) : Bool := charListLt a.data b.data

/-- `Order.objects.filter(...).order_by('-order_number').first()` — the
lexicographically largest string of the list, the way the database orders a
varchar column. -/
def maxByString : List String → Option String
  | [] => none
  | s :: rest =>
    match maxByString rest with
    | none => some s
    | some m => some (if strLt m s then s else m)

/-- Python `s.split('-')[-1]`: the characters after the last dash. -/
def suffixAfterDash (s : String) : List Char :=
  (s.data.reverse.takeWhile (fun c => c != '-')).reverse

/-- Python `int(...)` on a string of decimal digits. -/
def natOfDigits (cs : List Char) : Nat :=
  cs.foldl (fun n c => n * 10 + (c.toNat - 48)) 0

/-- `int(last_order.order_number.split('-')[-1])` — numeric value of the
dash-separated suffix of an order number. -/
def numberSuffixValue (s : String) : Nat :=
  natOfDigits (suffixAfterDash s)

/-- Order-number generation in `Order.save` (`apps/orders/models.py`
lines 213-228): filter the existing numbers by the `ORD-YYYYMMDD-` date
marker, take the largest by string order, parse its numeric suffix,
increment, and zero-pad to three digits. -/
def nextOrderNumber (today : String) (existing : List String) : String :=
  let pre := "ORD-" ++ today ++ "-"
  let matching := existing.filter (fun s => strStartsWith pre s)
  match maxByString matching with
  | none => pre ++ padZeros 3 1
  | some last => pre ++ padZeros 3 (numberSuffixValue last + 1)

/-- The first block of `Order.save` (`apps/orders/models.py` lines
214-228): generate the order number when it is empty. -/
def orderAssignNumber (today : String) (existing : List String) (o : Order) : Order :=
  if o.order_number == "" then
    { o with order_number := nextOrderNumber today existing } else o

/-- The second block of `Order.save` (lines 230-232): auto-calculate
`total_amount` when it is falsy (`if not self.total_amount`). -/
def orderComputeTotal (o : Order) : Order :=
  if o.total_amount == 0 then
    { o with total_amount := o.subtotal + o.delivery_fee } else o

/-- `Order.save` (`apps/orders/models.py` lines 213-234) for a fresh
row. -/
def orderSaveNew (today : String) (existing : List String) (o : Order) : Order :=
  orderComputeTotal (orderAssignNumber today existing o)

/-- `OrderItem.save`: auto-calculate `total_price` when falsy. -/
def orderItemSave (it : OrderItem) : OrderItem :=
  if it.total_price == 0 then
    { it with total_price := it.quantity * it.unit_price } else it

/-- One entry of the `order_items` working list built by the first loop of
`OrderCreateSerializer.create`: the fetched product instance (a snapshot of
the row at fetch time) together with quantity and snapshot prices. -/
structure PendingItem where
  product : Product
  quantity : Int
  unit_price : Int
  total_price : Int
deriving DecidableEq, Repr

/-- The validation loop of `OrderCreateSerializer.create`
(`orders/serializers.py` lines 240-271): fetch each active product, check
stock, forbid self-purchase, snapshot `unit_price = product.price` and
`total_price = quantity * unit_price`.  It raises on the first bad item,
before any row is written. -/
def validateItems (store : List Product) (buyerId : Nat) :
    List (Nat × Int) → Except String (List PendingItem)
  | [] => .ok []
  | (pid, qty) :: rest =>
    match getActiveProduct store pid with
    | none => .error ("Product with id " ++ toString pid ++ " not found or inactive")
    | some p =>
      if p.stock < qty then
        .error ("Insufficient stock for " ++ p.name)
      else if p.sellerId == buyerId then
        .error ("You cannot order your own product: " ++ p.name)
      else
        (validateItems store buyerId rest).map
          (fun ds => { product := p, quantity := qty, unit_price := p.price,
                       total_price := qty * p.price } :: ds)

/-- The request body of `POST /orders/`: buyer, the `items` list of
`(product_id, quantity)` pairs, the payment method and an optional
delivery fee (the serializer defaults it to 50.00 when absent). -/
structure CreateRequest where
  buyerId : Nat
  items : List (Nat × Int)
  payment_method : String
  delivery_fee : Option Int
deriving DecidableEq, Repr

/-- `OrderCreateSerializer.create` (`orders/serializers.py` lines 231-289):
validate every item against the current store, sum the snapshot totals into
`subtotal`, default `delivery_fee` to 50.00, set
`total_amount = subtotal + delivery_fee`, create the order row (which runs
`Order.save`, generating the order number), then create the item rows and
reduce each product's stock from the snapshot fetched during validation
(all fetches happen before any write, so each write is
`snapshot.stock - quantity`). -/
def createOrder (store : List Product) (req : CreateRequest) (oid : Nat)
    (today : String) (existingNumbers : List String) :
    Except String (Order × List Product) :=
  match validateItems store req.buyerId req.items with
  | .error e => .error e
  | .ok pending =>
    let subtotal := (pending.map (fun d => d.total_price)).sum
    let fee := (req.delivery_fee).getD 5000
    let order : Order :=
      { id := oid
        order_number := ""
        buyerId := req.buyerId
        subtotal := subtotal
        delivery_fee := fee
        total_amount := subtotal + fee
        status := "pending"
        payment_method := req.payment_method
        payment_status := "pending"
        sslcommerz_tran_id := none
        sslcommerz_val_id := none
        payment_date := none
        redx_order_id := none
        redx_tracking_number := none
        shipping_status := "pending"
        shipped_at := none
        delivered_at := none
        items := pending.map (fun d =>
          orderItemSave { productId := d.product.id, quantity := d.quantity,
                          unit_price := d.unit_price, total_price := d.total_price }) }
    let order := orderSaveNew today existingNumbers order
    let store' := pending.foldl
      (fun st d => setStock st d.product.id (d.product.stock - d.quantity)) store
    .ok (order, store')

/-- `order.seller_ids` (`apps/orders/models.py` lines 236-239): the distinct
seller ids of the products referenced by the order's items. -/
def sellerIds (store : List Product) (o : Order) : List Nat :=
  (o.items.filterMap (fun it => (getProduct store it.productId).map (fun p => p.sellerId))).dedup

/-- Outcome of a seller `confirm` request: the HTTP error responses carry the
untouched order row, while the product table is returned as the handler left
it (the stock writes inside the loop are committed row by row even when a
later item aborts the request). -/
inductive ConfirmResult where
  | failure (msg : String) (order : Order) (store : List Product)
  | success (order : Order) (store : List Product)
deriving DecidableEq, Repr

/-- The stock-deduction loop of `OrderViewSet.confirm`
(`apps/orders/views.py` lines 258-267): for each item fetch the product row,
return an error response as soon as one has `stock < quantity`, otherwise
write `stock - quantity` back and continue.  Writes made before an aborting
item persist. -/
def deductStock (store : List Product) : List OrderItem → Option String × List Product
  | [] => (none, store)
  | it :: rest =>
    match getProduct store it.productId with
    | none => (some "missing product row", store)
    | some p =>
      if p.stock < it.quantity then
        (some ("Not enough stock for product: " ++ p.name), store)
      else
        deductStock (setStock store p.id (p.stock - it.quantity)) rest

/-- `OrderViewSet.confirm` (`apps/orders/views.py` lines 236-277): reject a
seller not involved in the order, reject when the status is already
`confirmed` or `shipped`, run the stock-deduction loop, and on full success
advance the status to `confirmed`. -/
def confirmOrder (sellerId : Nat) (o : Order) (store : List Product) : ConfirmResult :=
  if sellerId ∈ sellerIds store o then
    if o.status == statusConfirmed || o.status == "shipped" then
      .failure "Order is already confirmed or shipped" o store
    else
      match deductStock store o.items with
      | (some e, st) => .failure e o st
      | (none, st) => .success { o with status := statusConfirmed } st
  else
    .failure "You can only confirm orders containing your products" o store

/-- Result of `create_redx_shipment` (`apps/orders/utils.py` lines 416-536):
the dict the adapter returns — `success`, `tracking_number`, `order_id` and
the explanatory `message` present only on the mock paths. -/
structure RedxResult where
  success : Bool
  tracking_number : String
  order_id : String
  message : Option String
deriving DecidableEq, Repr

/-- What the RedX booking HTTP call did, as the `try` block of
`create_redx_shipment` observes it: a non-2xx response
(`requests.exceptions.HTTPError`) with its diagnostic text, any other raised
exception with its message, or a 2xx JSON response whose `tracking_id` field
the code reads (`result.get('tracking_id', '')`, possibly empty). -/
inductive RedxOutcome where
  | httpError (detail : String)
  | otherError (msg : String)
  | response (trackingId : String)
deriving DecidableEq, Repr

/-- Whether the booking call failed (raised) rather than returning a
response. -/
def RedxOutcome.isFailure : RedxOutcome → Bool
  | .httpError _ => true
  | .otherError _ => true
  | .response _ => false

/-- The deterministic mock tracking number
`f"RDX{order.id:06d}{order.order_number[-3:]}"`. -/
def mockTrackingNumber (o : Order) : String :=
  "RDX" ++ padZeros 6 o.id ++ takeLast 3 o.order_number

/-- The mock booking result `create_redx_shipment` falls back to: flagged
successful, with the deterministic tracking number, a synthetic
`RDX-ORD-{id}` order id and an explanatory message. -/
def mockResult (o : Order) (msg : String) : RedxResult :=
  { success := true
    tracking_number := mockTrackingNumber o
    order_id := "RDX-ORD-" ++ toString o.id
    message := some msg }

/-- `create_redx_shipment` (`apps/orders/utils.py` lines 416-536): with no
configured API key return the mock result immediately; otherwise book the
parcel and return the real `tracking_id` on success, falling back to the
mock result when the call raises or the response carries no tracking id
(the `ValueError('No tracking_id in RedX response')` path). -/
def createRedxShipment (apiKey : String) (outcome : RedxOutcome) (o : Order) : RedxResult :=
  if apiKey == "" then
    mockResult o "Mock tracking (RedX API key not configured)"
  else
    match outcome with
    | .response tid =>
      if tid == "" then
        mockResult o "Mock tracking (RedX API error: No tracking_id in RedX response)"
      else
        { success := true, tracking_number := tid, order_id := o.order_number,
          message := none }
    | .httpError d => mockResult o ("Mock tracking (RedX API error: " ++ d ++ ")")
    | .otherError m => mockResult o ("Mock tracking (RedX API error: " ++ m ++ ")")

/-- Outcome of a seller `ship` request: an error response leaves the order
row untouched; success returns the updated row. -/
inductive ShipResult where
  | failure (msg : String) (order : Order)
  | shipped (order : Order)
deriving DecidableEq, Repr

/-- `OrderViewSet.ship` (`apps/orders/views.py` lines 279-333): reject a
seller not involved in the order; reject an SSLCommerz order whose payment
is not `success`; reject when the status is not `confirmed`; then book the
RedX shipment and, when the adapter reports success, set the status to
`shipped` only if it is `pending` or `paid` (the code's own guard), set
`shipping_status`, `shipped_at` and the tracking fields. -/
def shipOrder (sellerId : Nat) (apiKey : String) (outcome : RedxOutcome)
    (now : Int) (o : Order) (store : List Product) : ShipResult :=
  if sellerId ∈ sellerIds store o then
    if o.payment_status != "success" && o.payment_method == "sslcommerz" then
      .failure "Cannot ship order: Payment not completed" o
    else if o.status != statusConfirmed then
      .failure "Cannot ship order: Order not confirmed" o
    else
      let r := createRedxShipment apiKey outcome o
      if r.success then
        let o := if o.status == "pending" || o.status == "paid" then
          { o with status := "shipped" } else o
        .shipped { o with shipping_status := "in_transit", shipped_at := some now,
                          redx_tracking_number := some r.tracking_number,
                          redx_order_id := some r.order_id }
      else
        .failure "Failed to create RedX shipment" o
  else
    .failure "You can only ship orders containing your products" o

/-- `OrderViewSet.partial_update` (`apps/orders/views.py` lines 115-155),
the seller cancel endpoint: reject a seller not involved in the order;
reject any target status other than `cancelled`; reject when the current
status is `delivered` or `cancelled`; otherwise write the new status when
one was supplied. -/
def partialUpdate (sellerId : Nat) (newStatus : Option String) (o : Order)
    (store : List Product) : Except String Order :=
  if sellerId ∈ sellerIds store o then
    if (match newStatus with | some s => s != "cancelled" | none => false) then
      .error "Only cancellation is allowed via this endpoint. Use /ship/ to ship orders."
    else if o.status == "delivered" || o.status == "cancelled" then
      .error ("Cannot cancel order with status: " ++ o.status)
    else
      match newStatus with
      | some s => .ok { o with status := s }
      | none => .ok o
  else
    .error "You can only update orders containing your products"

/-- `Order.objects.get(sslcommerz_tran_id=tran_id)`: the transaction id
column is unique, so the first match is the row. -/
def findByTran : List Order → String → Option Order
  | [], _ => none
  | o :: rest, t =>
    if o.sslcommerz_tran_id == some t then some o else findByTran rest t

/-- Write back the (unique) row whose transaction id is `t`, replacing it by
`f` of itself — the `order.save()` at the end of a payment callback. -/
def updateByTran (f : Order → Order) (t : String) : List Order → List Order
  | [] => []
  | o :: rest =>
    if o.sslcommerz_tran_id == some t then f o :: rest
    else o :: updateByTran f t rest

/-- Where a payment redirect endpoint sends the browser. -/
inductive PaymentRedirect where
  | failedMissingTranId
  | failedOrderNotFound
  | successPage (orderId : Nat) (orderNumber : String)
  | failedPage
  | cancelledPage
deriving DecidableEq, Repr

/-- The field updates of the validated branch of `payment_success`
(`orders/payment_views.py` lines 108-114): `payment_status = 'success'`,
`status = PAID`, record the validation id and stamp `payment_date` with
the current time. -/
def paidUpdate (v : String) (now : Int) (o : Order) : Order :=
  { o with payment_status := "success", status := "paid",
           sslcommerz_val_id := some v, payment_date := some now }

/-- `payment_success` (`orders/payment_views.py` lines 86-130).  `validate`
is the `status` field of the JSON that `validate_sslcommerz_transaction`
(`apps/orders/utils.py` lines 388-413) returns for a `(val_id, tran_id)`
pair — `none` both when the response has no `status` key and when the call
raised (the code then returns an `error` dict).  A missing `tran_id` or an
unknown one redirects to the failure page without touching any row; with a
`val_id` whose validation reports `VALID`/`VALIDATED` the order is marked
paid; with a `val_id` and any other validation outcome `payment_status`
becomes `pending_validation`; with no `val_id` at all no field is written
and the browser is still sent to the success page. -/
def paymentSuccess (validate : String → String → Option String) (now : Int)
    (tranId valId : Option String) (orders : List Order) :
    List Order × PaymentRedirect :=
  match tranId with
  | none => (orders, .failedMissingTranId)
  | some t =>
    match findByTran orders t with
    | none => (orders, .failedOrderNotFound)
    | some o =>
      match valId with
      | some v =>
        let st := validate v t
        if st == some "VALID" || st == some "VALIDATED" then
          let o' := paidUpdate v now o
          (updateByTran (fun _ => o') t orders, .successPage o'.id o'.order_number)
        else
          let o' := { o with payment_status := "pending_validation" }
          (updateByTran (fun _ => o') t orders, .successPage o'.id o'.order_number)
      | none => (orders, .successPage o.id o.order_number)

/-- `payment_fail` (`orders/payment_views.py` lines 133-153): when a
`tran_id` is supplied and matches an order, unconditionally set its
`payment_status` to `failed` — no other field is written — and redirect to
the failure page in every case. -/
def paymentFail (tranId : Option String) (orders : List Order) :
    List Order × PaymentRedirect :=
  match tranId with
  | none => (orders, .failedPage)
  | some t =>
    match findByTran orders t with
    | none => (orders, .failedPage)
    | some o =>
      (updateByTran (fun _ => { o with payment_status := "failed" }) t orders, .failedPage)

/-- A placeholder row used only to destructure `Except`/`Option` results in
closed statements; every theorem below first proves the operation under
scrutiny succeeded, so the placeholder is never the value inspected. -/
def dummyOrder : Order :=
  { id := 0, order_number := "", buyerId := 0, subtotal := 0, delivery_fee := 0,
    total_amount := 0, status := "pending", payment_method := "sslcommerz",
    payment_status := "pending", sslcommerz_tran_id := none,
    sslcommerz_val_id := none, payment_date := none, redx_order_id := none,
    redx_tracking_number := none, shipping_status := "pending",
    shipped_at := none, delivered_at := none, items := [] }

/-- Whether an `Except` computation succeeded. -/
def exceptOk {ε α : Type} : Except ε α → Bool
  | .ok _ => true
  | .error _ => false

/-- The payload of a successful `Except` computation. -/
def exceptGet {ε α : Type} (d : α) : Except ε α → α
  | .ok a => a
  | .error _ => d

/-- The product table of the spec's end-to-end example: a product with
stock 10 priced 80.00 and a product with stock 5 priced 150.00, both sold
by seller 77. -/
def c1Store : List Product :=
  [ { id := 1, sellerId := 77, name := "Tomatoes", price := 8000, stock := 10, isActive := true },
    { id := 2, sellerId := 77, name := "Honey", price := 15000, stock := 5, isActive := true } ]

/-- The example order request: buyer 10 orders quantity 3 of product 1 and
quantity 1 of product 2 with a 50.00 delivery fee. -/
def c1Req : CreateRequest :=
  { buyerId := 10, items := [(1, 3), (2, 1)], payment_method := "sslcommerz",
    delivery_fee := some 5000 }

/-- The example order creation, on an empty order table. -/
def c1Created : Order × List Product :=
  exceptGet (dummyOrder, []) (createOrder c1Store c1Req 1 "20240115" [])

/-- The seller's `confirm` of the example order. -/
def c1Confirmed : ConfirmResult := confirmOrder 77 c1Created.1 c1Created.2

/-- The product table after the example `confirm`. -/
def c1ConfirmedStore : List Product :=
  match c1Confirmed with
  | .success _ st => st
  | .failure _ _ st => st

/-- Whether the example `confirm` succeeded. -/
def c1ConfirmedOk : Bool :=
  match c1Confirmed with
  | .success _ _ => true
  | .failure _ _ _ => false

/-- The order table of a day on which one thousand orders have been created:
the generator consults only the largest existing number, shown here with the
day's first two and last three numbers (the 1000th was itself generated from
`...-999`, whose parsed suffix 999 incremented to 1000). -/
def c6Numbers : List String :=
  [ "ORD-20240115-001", "ORD-20240115-002", "ORD-20240115-998",
    "ORD-20240115-999", "ORD-20240115-1000" ]

/-- A confirmed cash-on-delivery order over product 1 of `c1Store`, ready to
ship. -/
def c5Order : Order :=
  { dummyOrder with
      id := 1, order_number := "ORD-20240115-001", buyerId := 10,
      subtotal := 16000, delivery_fee := 5000, total_amount := 21000,
      status := statusConfirmed, payment_method := "cod",
      items := [{ productId := 1, quantity := 2, unit_price := 8000,
                  total_price := 16000 }] }

/-- The seller's `ship` call on `c5Order`, with the RedX integration
unconfigured (the adapter then reports success with a mock tracking
number). -/
def c5Result : ShipResult := shipOrder 77 "" (RedxOutcome.response "") 500 c5Order c1Store

/-- The order row `ship` left behind. -/
def c5ResultOrder : Order :=
  match c5Result with
  | .shipped o => o
  | .failure _ o => o

/-- Whether the `ship` call reported success. -/
def c5ResultOk : Bool :=
  match c5Result with
  | .shipped _ => true
  | .failure _ _ => false

/-- A pending order that has been through SSLCommerz session creation:
transaction id `TXN1` assigned, payment still pending. -/
def baseOrder : Order :=
  { dummyOrder with
      id := 1, order_number := "ORD-20240115-001", buyerId := 10,
      subtotal := 39000, delivery_fee := 5000, total_amount := 44000,
      sslcommerz_tran_id := some "TXN1" }

/-- A successfully paid order, for the C10 witness: `payment_status`
`success`, `status` `paid`, `payment_date` stamped. -/
def c10Order : Order :=
  { baseOrder with payment_status := "success", status := "paid",
                   sslcommerz_val_id := some "VAL1", payment_date := some 100 }

/-- An order in the terminal `refunded` status over product 1 of
`c1Store`. -/
def c9Order : Order := { c5Order with status := "refunded" }

/-- A row with its stock column blanked: stock writes preserve this value,
which carries every other column. -/
def shapeOf (store : List Product) (pid : Nat) : Option Product :=
  (getProduct store pid).map (fun p => { p with stock := 0 })

/-- A product table for the confirm scenarios: product 1 amply stocked,
product 2 short. -/
def c4Store : List Product :=
  [ { id := 1, sellerId := 77, name := "Tomatoes", price := 8000, stock := 10, isActive := true },
    { id := 2, sellerId := 77, name := "Honey", price := 2000, stock := 3, isActive := true } ]

/-- An order whose second item asks for more (5) than product 2's stock
(3), while its first item (2 of product 1) is coverable. -/
def c4Order : Order :=
  { dummyOrder with
      id := 2, order_number := "ORD-20240115-002", buyerId := 10,
      subtotal := 26000, delivery_fee := 5000, total_amount := 31000,
      items := [ { productId := 1, quantity := 2, unit_price := 8000, total_price := 16000 },
                 { productId := 2, quantity := 5, unit_price := 2000, total_price := 10000 } ] }

/-- The rejected `confirm` of `c4Order`. -/
def c4Result : ConfirmResult := confirmOrder 77 c4Order c4Store

/-- The product table the rejected `confirm` left behind. -/
def c4ResultStore : List Product :=
  match c4Result with
  | .success _ st => st
  | .failure _ _ st => st

/-- Whether the `confirm` of `c4Order` succeeded. -/
def c4ResultOk : Bool :=
  match c4Result with
  | .success _ _ => true
  | .failure _ _ _ => false

/-- An order over the same two products that `confirm` can fully cover. -/
def c4wOrder : Order :=
  { dummyOrder with
      id := 3, order_number := "ORD-20240115-003", buyerId := 10,
      subtotal := 18000, delivery_fee := 5000, total_amount := 23000,
      items := [ { productId := 1, quantity := 2, unit_price := 8000, total_price := 16000 },
                 { productId := 2, quantity := 1, unit_price := 2000, total_price := 2000 } ] }

/-- The successful `confirm` of `c4wOrder`. -/
def c4wConfirm : ConfirmResult := confirmOrder 77 c4wOrder c4Store

/-- The order row the successful `confirm` produced. -/
def c4wOrderAfter : Order :=
  match c4wConfirm with
  | .success o _ => o
  | .failure _ o _ => o

/-- The product table the successful `confirm` produced. -/
def c4wStoreAfter : List Product :=
  match c4wConfirm with
  | .success _ st => st
  | .failure _ _ st => st

/-- The relational state the order workflow touches: the product table and
the order table. -/
structure MarketState where
  products : List Product
  orders : List Order
deriving DecidableEq, Repr

/-- A seller edits a product's live price: a write to the product table
only — no order row is part of the statement. -/
def applyPriceUpdate (s : MarketState) (pid : Nat) (np : Int) : MarketState :=
  { s with products := setPrice s.products pid np }

/-- Claim C1: for the spec's end-to-end example the created order indeed has
`subtotal = 390.00` and `total_amount = 440.00`, but the stock levels after
the seller's `confirm` are 4 and 3, not the claimed 7 and 4:
`OrderCreateSerializer.create` already decrements stock at creation (to 7
and 4) and `OrderViewSet.confirm` decrements it a second time. -/
theorem claimC1_example_totals_and_double_decrement :
    exceptOk (createOrder c1Store c1Req 1 "20240115" []) = true
  ∧ c1Created.1.subtotal = 39000
  ∧ c1Created.1.total_amount = 44000
  ∧ stockOf c1Created.2 1 = some 7
  ∧ stockOf c1Created.2 2 = some 4
  ∧ c1ConfirmedOk = true
  ∧ stockOf c1ConfirmedStore 1 = some 4
  ∧ stockOf c1ConfirmedStore 2 = some 3
  ∧ stockOf c1ConfirmedStore 1 ≠ some 7 := by
  decide

/-- Claim C6: order numbers stop being unique beyond the 999th order of a
day.  Once `ORD-20240115-1000` exists, `order_by('-order_number')` picks
`ORD-20240115-999` as the largest (string comparison: `'9' > '1'`), parses
999 and generates `ORD-20240115-1000` again — a number already taken, so
the claimed global uniqueness and strict daily increase fail. -/
theorem claimC6_order_number_duplicate_after_999 :
    nextOrderNumber "20240115" c6Numbers = "ORD-20240115-1000"
  ∧ "ORD-20240115-1000" ∈ c6Numbers := by
  decide

/-- Claim C5: `ship` on a confirmed order succeeds, records a non-empty
tracking number and `shipped_at` — but it does not set the status to
`shipped`.  The status write is guarded by `status in [PENDING, PAID]`,
which can never hold after the `status == CONFIRMED` check three lines
earlier, so the order that the endpoint reports as "shipped successfully"
still has status `confirmed`. -/
theorem claimC5_ship_leaves_status_confirmed :
    c5ResultOk = true
  ∧ c5ResultOrder.status = "confirmed"
  ∧ c5ResultOrder.status ≠ "shipped"
  ∧ c5ResultOrder.redx_tracking_number = some "RDX000001001"
  ∧ c5ResultOrder.redx_tracking_number ≠ some ""
  ∧ c5ResultOrder.shipped_at = some 500
  ∧ c5ResultOrder.shipping_status = "in_transit" := by
  decide

/-- Claim C2, counterexample: a success redirect that matches an order by
`tran_id` but carries no `val_id` skips the whole validation block, so the
order's `payment_status` stays `pending` — it is not moved to
`pending_validation` as the claim requires — while the browser is still
redirected to the success page. -/
theorem claimC2_no_val_id_counterexample :
    (paymentSuccess (fun _ _ => some "VALID") 100 (some "TXN1") none
        [baseOrder]).1.map (fun o => o.payment_status) = ["pending"]
  ∧ (paymentSuccess (fun _ _ => some "VALID") 100 (some "TXN1") none
        [baseOrder]).2 = PaymentRedirect.successPage 1 "ORD-20240115-001"
  ∧ "pending" ≠ "pending_validation" := by
  decide

/-- Claim C3, counterexample: replaying the same success callback (same
`tran_id` `TXN1`, same `val_id` `VAL1`, validation reporting `VALID` both
times) at a later time overwrites `payment_date`: the first application
stamps time 100, the replay re-stamps time 200. -/
theorem claimC3_replay_overwrites_payment_date :
    (paymentSuccess (fun _ _ => some "VALID") 100 (some "TXN1") (some "VAL1")
        [baseOrder]).1.map (fun o => o.payment_date) = [some 100]
  ∧ ((paymentSuccess (fun _ _ => some "VALID") 200 (some "TXN1") (some "VAL1")
        ((paymentSuccess (fun _ _ => some "VALID") 100 (some "TXN1") (some "VAL1")
          [baseOrder]).1)).1.map (fun o => o.payment_date)) = [some 200]
  ∧ (some (200 : Int) ≠ some (100 : Int)) := by
  decide

/-- The row `Order.objects.get(sslcommerz_tran_id=t)` returns matches `t`. -/
theorem findByTran_tran_eq {orders : List Order} {t : String} {o : Order}
    (h : findByTran orders t = some o) : o.sslcommerz_tran_id = some t := by
  induction orders with
  | nil => simp [findByTran] at h
  | cons a rest ih =>
    by_cases ha : a.sslcommerz_tran_id = some t
    · simp [findByTran, ha] at h
      simpa [← h] using ha
    · simp [findByTran, ha] at h
      exact ih h

/-- Writing back the matched row leaves it the row that a fresh lookup by
the same transaction id returns. -/
theorem findByTran_update_const {orders : List Order} {t : String} {o : Order}
    (o' : Order) (h : findByTran orders t = some o)
    (h' : o'.sslcommerz_tran_id = some t) :
    findByTran (updateByTran (fun _ => o') t orders) t = some o' := by
  induction orders with
  | nil => simp [findByTran] at h
  | cons a rest ih =>
    by_cases ha : a.sslcommerz_tran_id = some t
    · simp [updateByTran, findByTran, ha, h']
    · simp [updateByTran, findByTran, ha] at h ⊢
      exact ih h

/-- Rows whose transaction id differs from the written one are untouched by
the write-back. -/
theorem mem_updateByTran_of_ne {orders : List Order} {t : String} {x : Order}
    (f : Order → Order) (hx : x ∈ orders) (hne : x.sslcommerz_tran_id ≠ some t) :
    x ∈ updateByTran f t orders := by
  induction orders with
  | nil => simp at hx
  | cons a rest ih =>
    rcases List.mem_cons.mp hx with rfl | hx'
    · have : (x.sslcommerz_tran_id == some t) = false := by
        simpa using hne
      simp [updateByTran, this]
    · by_cases ha : a.sslcommerz_tran_id = some t
      · simp [updateByTran, ha]
        exact Or.inr hx'
      · have : (a.sslcommerz_tran_id == some t) = false := by
          simpa using ha
        simp [updateByTran, this]
        exact Or.inr (ih hx')

/-- The validated branch of `payment_success`: when the matched order's
validation reports `VALID` or `VALIDATED`, the row is rewritten by
`paidUpdate` and the browser goes to the success page. -/
theorem paymentSuccess_valid (validate : String → String → Option String)
    (now : Int) (t v : String) (orders : List Order) (o : Order)
    (h : findByTran orders t = some o)
    (hv : validate v t = some "VALID" ∨ validate v t = some "VALIDATED") :
    paymentSuccess validate now (some t) (some v) orders =
      (updateByTran (fun _ => paidUpdate v now o) t orders,
       .successPage (paidUpdate v now o).id (paidUpdate v now o).order_number) := by
  have hb : (validate v t == some "VALID" || validate v t == some "VALIDATED") = true := by
    rcases hv with h1 | h1 <;> simp [h1]
  simp [paymentSuccess, h, hb]

/-- The unvalidated branch of `payment_success`: a supplied `val_id` whose
validation reports anything but `VALID`/`VALIDATED` (error dicts included)
rewrites only `payment_status`, to `pending_validation`. -/
theorem paymentSuccess_not_valid (validate : String → String → Option String)
    (now : Int) (t v : String) (orders : List Order) (o : Order)
    (h : findByTran orders t = some o)
    (h1 : validate v t ≠ some "VALID") (h2 : validate v t ≠ some "VALIDATED") :
    paymentSuccess validate now (some t) (some v) orders =
      (updateByTran (fun _ => { o with payment_status := "pending_validation" }) t orders,
       .successPage o.id o.order_number) := by
  have hb : (validate v t == some "VALID" || validate v t == some "VALIDATED") = false := by
    simp [h1, h2]
  simp [paymentSuccess, h, hb]

/-- The no-`val_id` branch of `payment_success`: the matched order is left
entirely unchanged and the browser still goes to the success page. -/
theorem paymentSuccess_no_val (validate : String → String → Option String)
    (now : Int) (t : String) (orders : List Order) (o : Order)
    (h : findByTran orders t = some o) :
    paymentSuccess validate now (some t) none orders =
      (orders, .successPage o.id o.order_number) := by
  simp [paymentSuccess, h]

/-- Claim C2, amended: on a success redirect matched by `tran_id`, the order
is marked paid (`payment_status = success`, `status = paid`, validation id
and `payment_date` recorded) exactly when a `val_id` is supplied and the
gateway validation call reports `VALID` or `VALIDATED`; when a `val_id` is
supplied and validation reports anything else — including an error dict
from a failed call — only `payment_status` is set, to `pending_validation`;
when no `val_id` is supplied the order is left entirely unchanged (its
`payment_status` keeps its prior value, e.g. `pending`).  In neither
non-validated case does the order become `success`/`paid`. -/
theorem claimC2_amended_validation_gates_paid
    (validate : String → String → Option String) (now : Int) (t v : String)
    (orders : List Order) (o : Order) (h : findByTran orders t = some o) :
    (validate v t = some "VALID" ∨ validate v t = some "VALIDATED" →
      (paymentSuccess validate now (some t) (some v) orders).1 =
        updateByTran (fun _ => paidUpdate v now o) t orders)
  ∧ (validate v t ≠ some "VALID" → validate v t ≠ some "VALIDATED" →
      (paymentSuccess validate now (some t) (some v) orders).1 =
        updateByTran (fun _ => { o with payment_status := "pending_validation" }) t orders)
  ∧ (paymentSuccess validate now (some t) none orders).1 = orders := by
  refine ⟨fun hv => ?_, fun h1 h2 => ?_, ?_⟩
  · rw [paymentSuccess_valid validate now t v orders o h hv]
  · rw [paymentSuccess_not_valid validate now t v orders o h h1 h2]
  · rw [paymentSuccess_no_val validate now t orders o h]

/-- Witness for C2's amended claim: with a validation call that fails (no
`status` in its response), the success redirect for `TXN1` with `val_id`
`VAL1` moves the base order's `payment_status` to `pending_validation`
only. -/
theorem claimC2_amended_validation_gates_paid_witness :
    (paymentSuccess (fun _ _ => none) 100 (some "TXN1") (some "VAL1")
        [baseOrder]).1 =
      updateByTran (fun _ => { baseOrder with payment_status := "pending_validation" })
        "TXN1" [baseOrder] :=
  (claimC2_amended_validation_gates_paid (fun _ _ => none) 100 "TXN1" "VAL1"
    [baseOrder] baseOrder (by decide)).2.1 (by decide) (by decide)

/-- Claim C3, amended: replaying the same success callback (same `tran_id`,
same `val_id`, validation again reporting success) re-applies the same
field writes: `payment_status`, `status` and the validation id are
re-assigned the values the first application gave them, but `payment_date`
is overwritten with the replay's current time — the replayed row differs
from the first-application row exactly in `payment_date`. -/
theorem claimC3_amended_replay_rewrites_only_payment_date
    (validate : String → String → Option String) (now1 now2 : Int)
    (t v : String) (orders : List Order) (o : Order)
    (h : findByTran orders t = some o)
    (hv : validate v t = some "VALID" ∨ validate v t = some "VALIDATED") :
    findByTran (paymentSuccess validate now1 (some t) (some v) orders).1 t =
      some (paidUpdate v now1 o)
  ∧ (paymentSuccess validate now2 (some t) (some v)
        (paymentSuccess validate now1 (some t) (some v) orders).1).1 =
      updateByTran (fun _ => { paidUpdate v now1 o with payment_date := some now2 }) t
        (paymentSuccess validate now1 (some t) (some v) orders).1 := by
  have htran := findByTran_tran_eq h
  have hfind : findByTran (paymentSuccess validate now1 (some t) (some v) orders).1 t =
      some (paidUpdate v now1 o) := by
    rw [paymentSuccess_valid validate now1 t v orders o h hv]
    exact findByTran_update_const (paidUpdate v now1 o) h htran
  refine ⟨hfind, ?_⟩
  rw [paymentSuccess_valid validate now2 t v _ (paidUpdate v now1 o) hfind hv]
  rfl

/-- Witness for C3's amended claim: replaying the `TXN1` callback at time
200 after the first application at time 100 rewrites the matched row to the
time-200 copy of the time-100 row. -/
theorem claimC3_amended_replay_witness :
    findByTran (paymentSuccess (fun _ _ => some "VALID") 100 (some "TXN1")
        (some "VAL1") [baseOrder]).1 "TXN1" = some (paidUpdate "VAL1" 100 baseOrder)
  ∧ (paymentSuccess (fun _ _ => some "VALID") 200 (some "TXN1") (some "VAL1")
        (paymentSuccess (fun _ _ => some "VALID") 100 (some "TXN1") (some "VAL1")
          [baseOrder]).1).1 =
      updateByTran
        (fun _ => { paidUpdate "VAL1" 100 baseOrder with payment_date := some 200 })
        "TXN1"
        (paymentSuccess (fun _ _ => some "VALID") 100 (some "TXN1") (some "VAL1")
          [baseOrder]).1 :=
  claimC3_amended_replay_rewrites_only_payment_date (fun _ _ => some "VALID")
    100 200 "TXN1" "VAL1" [baseOrder] baseOrder (by decide) (Or.inl rfl)

/-- Claim C10: the payment fail callback, matched by `tran_id`,
unconditionally rewrites the order's `payment_status` to `failed` — the
record update touches no other field, so `status`, `payment_date` and the
rest keep their values even when `payment_status` was already `success` —
and every non-matching row is untouched. -/
theorem claimC10_fail_callback_overwrites (t : String) (orders : List Order)
    (o : Order) (h : findByTran orders t = some o) :
    (paymentFail (some t) orders).1 =
      updateByTran (fun _ => { o with payment_status := "failed" }) t orders
  ∧ findByTran (paymentFail (some t) orders).1 t =
      some { o with payment_status := "failed" }
  ∧ ∀ x ∈ orders, x.sslcommerz_tran_id ≠ some t →
      x ∈ (paymentFail (some t) orders).1 := by
  have h1 : (paymentFail (some t) orders).1 =
      updateByTran (fun _ => { o with payment_status := "failed" }) t orders := by
    simp [paymentFail, h]
  have htran := findByTran_tran_eq h
  refine ⟨h1, ?_, ?_⟩
  · rw [h1]
    exact findByTran_update_const ({ o with payment_status := "failed" }) h htran
  · intro x hx hne
    rw [h1]
    exact mem_updateByTran_of_ne _ hx hne

/-- Witness for C10: a late fail callback for `TXN1` flips the already-paid
order's `payment_status` to `failed`, leaving `status = paid` and
`payment_date = 100` in place. -/
theorem claimC10_fail_callback_overwrites_witness :
    findByTran (paymentFail (some "TXN1") [c10Order]).1 "TXN1" =
      some { c10Order with payment_status := "failed" } :=
  (claimC10_fail_callback_overwrites "TXN1" [c10Order] c10Order (by decide)).2.1

/-- Claim C9: the seller cancel endpoint (`partial_update` with target
status `cancelled`), called by a seller involved in the order, is rejected
exactly when the current status is `delivered` or `cancelled`; from every
other status — `refunded` and `shipped` included — it succeeds and writes
`status = cancelled`. -/
theorem claimC9_cancel_guard (sellerId : Nat) (o : Order) (store : List Product)
    (hs : sellerId ∈ sellerIds store o) :
    (o.status = "delivered" ∨ o.status = "cancelled" →
      partialUpdate sellerId (some "cancelled") o store =
        .error ("Cannot cancel order with status: " ++ o.status))
  ∧ (o.status ≠ "delivered" → o.status ≠ "cancelled" →
      partialUpdate sellerId (some "cancelled") o store =
        .ok { o with status := "cancelled" }) := by
  constructor
  · intro hd
    have hb : (o.status == "delivered" || o.status == "cancelled") = true := by
      rcases hd with h1 | h1 <;> simp [h1]
    simp [partialUpdate, hs, hb]
  · intro h1 h2
    have hb : (o.status == "delivered" || o.status == "cancelled") = false := by
      simp [h1, h2]
    simp [partialUpdate, hs, hb]

/-- Witness for C9: seller 77 cancels the refunded order — the endpoint
accepts and sets `status = cancelled`. -/
theorem claimC9_cancel_guard_witness :
    partialUpdate 77 (some "cancelled") c9Order c1Store =
      .ok { c9Order with status := "cancelled" } :=
  (claimC9_cancel_guard 77 c9Order c1Store (by decide)).2 (by decide) (by decide)

/-- Claim C8: whenever the RedX API key is unconfigured or the booking call
fails (a non-2xx response or any other exception), `create_redx_shipment`
returns the mock result: flagged successful, carrying the deterministic
tracking number `RDX` + the zero-padded order id + the last three
characters of the order number, and an explanatory `message` spelling out
that it is mock tracking — so the ship transition never hard-fails on
integration unavailability. -/
theorem claimC8_mock_tracking (apiKey d m s : String) (outcome : RedxOutcome)
    (o : Order) :
    (apiKey = "" → createRedxShipment apiKey outcome o =
      mockResult o "Mock tracking (RedX API key not configured)")
  ∧ (apiKey ≠ "" → outcome = RedxOutcome.httpError d →
      createRedxShipment apiKey outcome o =
        mockResult o ("Mock tracking (RedX API error: " ++ d ++ ")"))
  ∧ (apiKey ≠ "" → outcome = RedxOutcome.otherError m →
      createRedxShipment apiKey outcome o =
        mockResult o ("Mock tracking (RedX API error: " ++ m ++ ")"))
  ∧ (mockResult o s).success = true
  ∧ (mockResult o s).tracking_number =
      "RDX" ++ padZeros 6 o.id ++ takeLast 3 o.order_number
  ∧ (mockResult o s).message = some s := by
  refine ⟨fun hk => ?_, fun hk ho => ?_, fun hk ho => ?_, rfl, rfl, rfl⟩
  · simp [createRedxShipment, hk]
  · subst ho
    simp [createRedxShipment, hk]
  · subst ho
    simp [createRedxShipment, hk]

/-- Witness for C8: with a configured key but a timed-out booking call, the
adapter reports success with the mock tracking number `RDX000001001` for
`c5Order` and the explanatory mock message. -/
theorem claimC8_mock_tracking_witness :
    createRedxShipment "key" (RedxOutcome.httpError "timeout") c5Order =
      mockResult c5Order "Mock tracking (RedX API error: timeout)" :=
  (claimC8_mock_tracking "key" "timeout" "" "" (RedxOutcome.httpError "timeout")
    c5Order).2.1 (by decide) rfl

/-- The row a primary-key lookup returns carries that key. -/
theorem getProduct_id {store : List Product} {pid : Nat} {p : Product}
    (h : getProduct store pid = some p) : p.id = pid := by
  induction store with
  | nil => simp [getProduct] at h
  | cons a rest ih =>
    simp only [getProduct] at h
    split at h
    case isTrue hcond =>
      injection h with h'
      subst h'
      simpa using hcond
    case isFalse hcond => exact ih h

/-- The row an active-product lookup returns carries that key and is
active. -/
theorem getActiveProduct_id {store : List Product} {pid : Nat} {p : Product}
    (h : getActiveProduct store pid = some p) : p.id = pid ∧ p.isActive = true := by
  induction store with
  | nil => simp [getActiveProduct] at h
  | cons a rest ih =>
    simp only [getActiveProduct] at h
    split at h
    case isTrue hcond =>
      injection h with h'
      subst h'
      simpa using hcond
    case isFalse hcond => exact ih h

/-- Writing the stock column of row `qid` rewrites exactly the looked-up
row: any lookup sees the same row, with its stock replaced when its key is
`qid`. -/
theorem getProduct_setStock (store : List Product) (qid : Nat) (s : Int) (pid : Nat) :
    getProduct (setStock store qid s) pid =
      (getProduct store pid).map
        (fun p => if p.id == qid then { p with stock := s } else p) := by
  induction store with
  | nil => rfl
  | cons a rest ih =>
    by_cases hq : a.id = qid <;> by_cases hp : a.id = pid
    · have hqp : qid = pid := hq.symm.trans hp
      simp [setStock, getProduct, hq, hp, hqp, ih]
    · have hqp : qid ≠ pid := fun hh => hp (hq.trans hh)
      simp [setStock, getProduct, hq, hp, hqp, ih]
    · have hqp : pid ≠ qid := fun hh => hq (hp.trans hh)
      simp [setStock, getProduct, hq, hp, hqp, ih]
    · simp [setStock, getProduct, hq, hp, ih]

/-- Stock writes to another row do not change a row's stock. -/
theorem stockOf_setStock_ne {pid qid : Nat} (store : List Product) (s : Int)
    (hne : pid ≠ qid) : stockOf (setStock store qid s) pid = stockOf store pid := by
  unfold stockOf
  rw [getProduct_setStock]
  cases hg : getProduct store pid with
  | none => rfl
  | some p =>
    have hid := getProduct_id hg
    simp [hid, hne]

/-- A stock write to an existing row makes its stock the written value. -/
theorem stockOf_setStock_self {qid : Nat} {store : List Product} {p : Product}
    (hg : getProduct store qid = some p) (s : Int) :
    stockOf (setStock store qid s) qid = some s := by
  unfold stockOf
  rw [getProduct_setStock, hg]
  have hid := getProduct_id hg
  simp [hid]

/-- A stock write changes no column other than stock. -/
theorem shapeOf_setStock (store : List Product) (qid : Nat) (s : Int) (pid : Nat) :
    shapeOf (setStock store qid s) pid = shapeOf store pid := by
  unfold shapeOf
  rw [getProduct_setStock]
  cases hg : getProduct store pid with
  | none => rfl
  | some p => by_cases hq : p.id = qid <;> simp [hq]

/-- The stock-deduction loop of `confirm` changes no column other than
stock, whether it completes or aborts midway. -/
theorem deductStock_shape (items : List OrderItem) (store : List Product) (pid : Nat) :
    shapeOf (deductStock store items).2 pid = shapeOf store pid := by
  induction items generalizing store with
  | nil => rfl
  | cons it rest ih =>
    cases hg : getProduct store it.productId with
    | none => simp [deductStock, hg]
    | some p =>
      by_cases hlt : p.stock < it.quantity
      · simp [deductStock, hg, hlt]
      · simp [deductStock, hg, hlt, ih, shapeOf_setStock]

/-- A completed stock-deduction loop over items with pairwise-distinct
products decrements each item's product stock by exactly that item's
quantity, and leaves every other row's stock alone. -/
theorem deductStock_none_stocks (items : List OrderItem) (store st' : List Product)
    (hnd : (items.map (fun it => it.productId)).Nodup)
    (h : deductStock store items = (none, st')) :
    (∀ it ∈ items, stockOf st' it.productId =
        (stockOf store it.productId).map (fun s => s - it.quantity))
  ∧ (∀ pid, pid ∉ items.map (fun it => it.productId) →
        stockOf st' pid = stockOf store pid) := by
  induction items generalizing store with
  | nil =>
    simp [deductStock] at h
    subst h
    exact ⟨by simp, fun pid _ => rfl⟩
  | cons it rest ih =>
    cases hg : getProduct store it.productId with
    | none => simp [deductStock, hg] at h
    | some p =>
      by_cases hlt : p.stock < it.quantity
      · simp [deductStock, hg, hlt] at h
      · simp [deductStock, hg, hlt] at h
        have hid : p.id = it.productId := getProduct_id hg
        simp only [List.map_cons, List.nodup_cons] at hnd
        obtain ⟨hnotin, hnd'⟩ := hnd
        obtain ⟨ih1, ih2⟩ := ih (setStock store p.id (p.stock - it.quantity)) hnd' h
        constructor
        · intro jt hjt
          rcases List.mem_cons.mp hjt with rfl | hjt'
          · rw [ih2 jt.productId hnotin, hid, stockOf_setStock_self hg]
            simp [stockOf, hg]
          · have hne : jt.productId ≠ it.productId := by
              intro he
              exact hnotin (he ▸ List.mem_map_of_mem (fun x => x.productId) hjt')
            rw [ih1 jt hjt']
            rw [hid, stockOf_setStock_ne store _ hne]
        · intro pid hpid
          simp only [List.map_cons, List.mem_cons] at hpid
          push_neg at hpid
          obtain ⟨hpid1, hpid2⟩ := hpid
          rw [ih2 pid hpid2, hid, stockOf_setStock_ne store _ hpid1]

/-- Stores that agree on every row up to stock give every order the same
`seller_ids`. -/
theorem sellerIds_of_shape_eq (store store' : List Product) (o : Order)
    (h : ∀ pid, shapeOf store' pid = shapeOf store pid) :
    sellerIds store' o = sellerIds store o := by
  unfold sellerIds
  congr 1
  apply List.filterMap_congr
  intro it _
  have hs := h it.productId
  unfold shapeOf at hs
  cases h1 : getProduct store' it.productId with
  | none =>
    cases h2 : getProduct store it.productId with
    | none => rfl
    | some q => simp [h1, h2] at hs
  | some q =>
    cases h2 : getProduct store it.productId with
    | none => simp [h1, h2] at hs
    | some r =>
      rw [h1, h2] at hs
      have hs' : ({ q with stock := 0 } : Product) = { r with stock := 0 } := by
        simpa using hs
      have : q.sellerId = r.sellerId := by
        have := congrArg Product.sellerId hs'
        simpa using this
      simp [this]

/-- Inversion of a successful `confirm`: the seller was involved, the
status guard passed, the deduction loop completed into the final store, and
the returned order is the original with status `confirmed`. -/
theorem confirmOrder_success_inv {sellerId : Nat} {o : Order}
    {store : List Product} {o' : Order} {st' : List Product}
    (h : confirmOrder sellerId o store = .success o' st') :
    sellerId ∈ sellerIds store o
  ∧ (o.status == statusConfirmed || o.status == "shipped") = false
  ∧ deductStock store o.items = (none, st')
  ∧ o' = { o with status := statusConfirmed } := by
  unfold confirmOrder at h
  by_cases hs : sellerId ∈ sellerIds store o
  · rw [if_pos hs] at h
    by_cases hst : (o.status == statusConfirmed || o.status == "shipped") = true
    · rw [if_pos hst] at h
      simp at h
    · rw [if_neg hst] at h
      cases hd : deductStock store o.items with
      | mk e st =>
        rw [hd] at h
        cases e with
        | none =>
          simp at h
          obtain ⟨ho', hst'⟩ := h
          subst hst'
          exact ⟨hs, by simpa using hst, rfl, ho'.symm⟩
        | some msg => simp at h
  · rw [if_neg hs] at h
    simp at h

/-- Claim C4, amended: a second `confirm` immediately after a successful
one is rejected with "already confirmed or shipped" and changes nothing; a
successful `confirm` decrements each line item's product stock by exactly
that item's quantity, exactly once (for orders whose items reference
pairwise-distinct products); and every rejected `confirm` leaves the order
row itself untouched — but rejection on an insufficient item is *not*
atomic: stock already deducted for items earlier in the loop stays
deducted, as the counterexample shows. -/
theorem claimC4_amended_confirm (sellerId : Nat) (o : Order)
    (store : List Product) (o' : Order) (st' : List Product)
    (h : confirmOrder sellerId o store = .success o' st') :
    confirmOrder sellerId o' st' =
      .failure "Order is already confirmed or shipped" o' st'
  ∧ ((o.items.map (fun it => it.productId)).Nodup →
      ∀ it ∈ o.items, stockOf st' it.productId =
        (stockOf store it.productId).map (fun s => s - it.quantity))
  ∧ (∀ sid2 o2 st2 m oErr stErr,
      confirmOrder sid2 o2 st2 = .failure m oErr stErr → oErr = o2) := by
  obtain ⟨hs, hst, hd, ho'⟩ := confirmOrder_success_inv h
  have hshape : ∀ pid, shapeOf st' pid = shapeOf store pid := by
    intro pid
    have hds := deductStock_shape o.items store pid
    rw [hd] at hds
    exact hds
  refine ⟨?_, ?_, ?_⟩
  · have hsel : sellerIds st' o' = sellerIds store o := by
      have h1 : sellerIds st' o' = sellerIds st' o := by
        subst ho'
        rfl
      rw [h1]
      exact sellerIds_of_shape_eq store st' o hshape
    subst ho'
    simp [confirmOrder, hsel, hs]
  · intro hnd it hit
    exact (deductStock_none_stocks o.items store st' hnd hd).1 it hit
  · intro sid2 o2 st2 m oErr stErr hf
    unfold confirmOrder at hf
    by_cases hs2 : sid2 ∈ sellerIds st2 o2
    · rw [if_pos hs2] at hf
      by_cases hst2 : (o2.status == statusConfirmed || o2.status == "shipped") = true
      · rw [if_pos hst2] at hf
        simp at hf
        exact hf.2.1.symm
      · rw [if_neg hst2] at hf
        cases hd2 : deductStock st2 o2.items with
        | mk e st =>
          rw [hd2] at hf
          cases e with
          | none => simp at hf
          | some msg =>
            simp at hf
            exact hf.2.1.symm
    · rw [if_neg hs2] at hf
      simp at hf
      exact hf.2.1.symm

/-- Claim C4, counterexample: `confirm` on an order whose second item lacks
stock is rejected, yet product 1 — processed before the loop aborted — has
already lost its 2 units (stock 10 dropped to 8).  The rejection is not
"entire": the partial stock write persists. -/
theorem claimC4_reject_keeps_partial_decrement :
    c4ResultOk = false
  ∧ stockOf c4Store 1 = some 10
  ∧ stockOf c4ResultStore 1 = some 8
  ∧ stockOf c4ResultStore 1 ≠ stockOf c4Store 1
  ∧ stockOf c4ResultStore 2 = some 3 := by
  decide

/-- Witness for C4's amended claim: re-running `confirm` right after the
successful `confirm` of `c4wOrder` is rejected as already confirmed. -/
theorem claimC4_amended_confirm_witness :
    confirmOrder 77 c4wOrderAfter c4wStoreAfter =
      .failure "Order is already confirmed or shipped" c4wOrderAfter c4wStoreAfter :=
  (claimC4_amended_confirm 77 c4wOrder c4Store c4wOrderAfter c4wStoreAfter (by decide)).1

/-- `OrderItem.save` only ever touches `total_price`. -/
theorem orderItemSave_unit_price (it : OrderItem) :
    (orderItemSave it).unit_price = it.unit_price := by
  unfold orderItemSave
  split <;> rfl

/-- `OrderItem.save` keeps the quantity. -/
theorem orderItemSave_quantity (it : OrderItem) :
    (orderItemSave it).quantity = it.quantity := by
  unfold orderItemSave
  split <;> rfl

/-- `OrderItem.save` keeps the product reference. -/
theorem orderItemSave_productId (it : OrderItem) :
    (orderItemSave it).productId = it.productId := by
  unfold orderItemSave
  split <;> rfl

/-- Every entry the validation loop emits snapshots the fetched product:
`total_price = quantity * unit_price`, `unit_price` is the product's price
at fetch time, and the product is the row the active lookup returns. -/
theorem validateItems_ok_spec (store : List Product) (buyerId : Nat) :
    ∀ (items : List (Nat × Int)) (ds : List PendingItem),
      validateItems store buyerId items = .ok ds →
      ∀ d ∈ ds, d.total_price = d.quantity * d.unit_price
        ∧ d.unit_price = d.product.price
        ∧ getActiveProduct store d.product.id = some d.product := by
  intro items
  induction items with
  | nil =>
    intro ds h d hd
    simp [validateItems] at h
    subst h
    simp at hd
  | cons pr rest ih =>
    intro ds h d hd
    obtain ⟨pid, qty⟩ := pr
    cases hg : getActiveProduct store pid with
    | none => simp [validateItems, hg] at h
    | some p =>
      simp only [validateItems, hg] at h
      by_cases hlt : p.stock < qty
      · rw [if_pos hlt] at h
        simp at h
      · rw [if_neg hlt] at h
        by_cases hsl : (p.sellerId == buyerId) = true
        · rw [if_pos hsl] at h
          simp at h
        · rw [if_neg hsl] at h
          cases hv : validateItems store buyerId rest with
          | error e => rw [hv] at h; simp [Except.map] at h
          | ok ds' =>
            rw [hv] at h
            simp [Except.map] at h
            subst h
            rcases List.mem_cons.mp hd with rfl | hd'
            · refine ⟨rfl, rfl, ?_⟩
              rw [(getActiveProduct_id hg).1]
              exact hg
            · exact ih ds' hv d hd'

/-- `Order.save` for a fresh row keeps the subtotal. -/
theorem orderSaveNew_subtotal (t : String) (n : List String) (o : Order) :
    (orderSaveNew t n o).subtotal = o.subtotal := by
  unfold orderSaveNew orderComputeTotal orderAssignNumber
  split <;> split <;> rfl

/-- `Order.save` for a fresh row keeps the delivery fee. -/
theorem orderSaveNew_delivery_fee (t : String) (n : List String) (o : Order) :
    (orderSaveNew t n o).delivery_fee = o.delivery_fee := by
  unfold orderSaveNew orderComputeTotal orderAssignNumber
  split <;> split <;> rfl

/-- `Order.save` for a fresh row keeps the items. -/
theorem orderSaveNew_items (t : String) (n : List String) (o : Order) :
    (orderSaveNew t n o).items = o.items := by
  unfold orderSaveNew orderComputeTotal orderAssignNumber
  split <;> split <;> rfl

/-- `Order.save` preserves the total invariant: a row entering with
`total_amount = subtotal + delivery_fee` leaves with it, whether or not the
falsy-total recomputation fires. -/
theorem orderSaveNew_total_inv (t : String) (n : List String) (o : Order)
    (h : o.total_amount = o.subtotal + o.delivery_fee) :
    (orderSaveNew t n o).total_amount =
      (orderSaveNew t n o).subtotal + (orderSaveNew t n o).delivery_fee := by
  unfold orderSaveNew orderComputeTotal orderAssignNumber
  split <;> split <;> simp [h]

/-- Claim C7: every order the create operation accepts satisfies
`total_amount = subtotal + delivery_fee` and
`subtotal = Σ (unit_price * quantity)` over its stored line items; each
line item's `unit_price` is the price of the product as fetched from the
creation-time table (the snapshot); and a later live-price edit rewrites
the product table only, leaving the stored order untouched. -/
theorem claimC7_totals_and_snapshots (store : List Product) (req : CreateRequest)
    (oid : Nat) (today : String) (nums : List String) (o : Order)
    (st' : List Product)
    (h : createOrder store req oid today nums = .ok (o, st')) :
    o.total_amount = o.subtotal + o.delivery_fee
  ∧ o.subtotal = (o.items.map (fun it => it.unit_price * it.quantity)).sum
  ∧ (∀ it ∈ o.items, ∃ p,
      getActiveProduct store it.productId = some p ∧ it.unit_price = p.price)
  ∧ (∀ pid np,
      (applyPriceUpdate { products := st', orders := [o] } pid np).orders = [o]) := by
  unfold createOrder at h
  cases hv : validateItems store req.buyerId req.items with
  | error e => rw [hv] at h; simp at h
  | ok ds =>
    rw [hv] at h
    simp only [Except.ok.injEq, Prod.mk.injEq] at h
    obtain ⟨ho, hst⟩ := h
    have hspec := validateItems_ok_spec store req.buyerId req.items ds hv
    subst ho
    refine ⟨?_, ?_, ?_, ?_⟩
    · apply orderSaveNew_total_inv
      rfl
    · rw [orderSaveNew_subtotal, orderSaveNew_items]
      show (ds.map (fun d => d.total_price)).sum = _
      rw [List.map_map]
      apply congrArg
      apply List.map_congr_left
      intro d hd
      have hd1 := (hspec d hd).1
      simp only [Function.comp, orderItemSave_unit_price, orderItemSave_quantity]
      rw [hd1, Int.mul_comm]
    · rw [orderSaveNew_items]
      intro it hit
      obtain ⟨d, hd, hde⟩ := List.mem_map.mp hit
      obtain ⟨_, hd2, hd3⟩ := hspec d hd
      refine ⟨d.product, ?_, ?_⟩
      · rw [← hde, orderItemSave_productId]
        exact hd3
      · rw [← hde, orderItemSave_unit_price]
        exact hd2
    · intro pid np
      rfl

/-- Witness for C7: the end-to-end example order (`c1Req` against
`c1Store`) satisfies the totals invariant, the snapshot property, and the
price-edit frame property. -/
theorem claimC7_totals_and_snapshots_witness :
    c1Created.1.total_amount = c1Created.1.subtotal + c1Created.1.delivery_fee
  ∧ c1Created.1.subtotal =
      (c1Created.1.items.map (fun it => it.unit_price * it.quantity)).sum
  ∧ (∀ it ∈ c1Created.1.items, ∃ p,
      getActiveProduct c1Store it.productId = some p ∧ it.unit_price = p.price)
  ∧ (∀ pid np,
      (applyPriceUpdate { products := c1Created.2, orders := [c1Created.1] }
        pid np).orders = [c1Created.1]) :=
  claimC7_totals_and_snapshots c1Store c1Req 1 "20240115" [] c1Created.1
    c1Created.2 (by rfl)
